import Mathlib

/-!
Verification of the reservation / ordering API in `src/index.js` of the
restaurant-reservation-system repository.

The route handlers are embedded shallowly: the database is a list of rows,
an SQL `UPDATE ... WHERE pred` is a map that rewrites exactly the rows
matching `pred`, `SELECT ... WHERE pred` is `List.find?` / `List.filter`,
and each handler is a pure function from the incoming request (plus the
relevant database tables) to a response, the updated table, and the list of
notification rows inserted as side effects.  Postgres `time` values are
minutes after midnight; `time + interval` arithmetic wraps modulo one day.
JavaScript strings are Lean `String`s, with `slice` / `toLowerCase`
embedded on the underlying character list.  The `notifOk` flag models
whether a notification `INSERT` succeeds; the handlers swallow a failed
insert (try/catch around it), which the embedding reflects by emitting the
row only when the flag is set while computing everything else identically.
-/

namespace RRS

/-- Minutes-after-midnight addition for Postgres `time + interval`, which
wraps around midnight. -/
def addMin (t k : Nat) : Nat := (t + k) % 1440

/-- Status values permitted by the `reservation.status` CHECK constraint in
`schema.sql`. -/
inductive RStatus where
  | pending
  | confirmed
  | cancelled
  | completed
  | cancellationRequested
  | noShow
deriving DecidableEq, Repr

/-- Filter `status NOT IN ('cancelled', 'no-show')` used by the availability
queries (an "active" reservation in the glossary's sense). -/
def isActive (s : RStatus) : Bool :=
  !(s == RStatus.cancelled || s == RStatus.noShow)

/-- Time-window overlap test from the availability query in
POST /api/reservations (`src/index.js` lines 661-666):
`(reservation_time >= $4 AND reservation_time < $4::time + interval '2 hours')
 OR (reservation_time < $4 AND reservation_time + interval '2 hours' > $4)`,
with `existing` the stored `reservation_time` and `requested` the bound `$4`. -/
def overlapsWindow (existing requested : Nat) : Bool :=
  (decide (requested ≤ existing) && decide (existing < addMin requested 120))
    || (decide (existing < requested) && decide (requested < addMin existing 120))

/-- Row of the `reservation` table (`schema.sql`). -/
structure Reservation where
  id : Nat
  customerId : Option String
  restaurantId : Nat
  tableId : Option Nat
  reservationDate : String
  reservationTime : Nat
  partySize : Nat
  status : RStatus
  cancellationReason : Option String
  specialRequests : Option String
  totalAmount : Int
deriving DecidableEq, Repr

/-- Values permitted by the `notification.type` CHECK constraint. -/
inductive NotifType where
  | reservationNew
  | reservationCancelled
  | cancellationRequest
  | cancellationApproved
  | cancellationRejected
  | orderNew
  | reservationConfirmed
deriving DecidableEq, Repr

/-- Row of the `notification` table: the target is a restaurant (staff inbox)
or a customer (customer inbox). -/
structure Notification where
  restaurantId : Option Nat
  customerId : Option String
  type : NotifType
  title : String
  message : String
  reservationId : Option Nat
  isRead : Bool
deriving DecidableEq, Repr

/-- Embedding of the `createNotification` helper (`src/index.js` lines
596-610): inserts a staff-inbox row.  The helper wraps its INSERT in
try/catch and returns null on failure, so a failing insert (`ok = false`)
produces no row and no error reaches the caller. -/
def createNotification (ok : Bool) (restaurantId : Nat) (t : NotifType)
    (title message : String) (reservationId : Option Nat) : List Notification :=
  if ok then
    [{ restaurantId := some restaurantId, customerId := none, type := t,
       title := title, message := message, reservationId := reservationId,
       isRead := false }]
  else []

/-- Embedding of the `createCustomerNotification` helper (`src/index.js`
lines 613-627), same try/catch structure, targeting a customer inbox. -/
def createCustomerNotification (ok : Bool) (customerId : String) (t : NotifType)
    (title message : String) (reservationId : Option Nat) : List Notification :=
  if ok then
    [{ restaurantId := none, customerId := some customerId, type := t,
       title := title, message := message, reservationId := reservationId,
       isRead := false }]
  else []

/-- SQL `UPDATE db SET f WHERE pred`: rewrite exactly the matching rows. -/
def updateRows (db : List Reservation) (pred : Reservation → Bool)
    (f : Reservation → Reservation) : List Reservation :=
  db.map fun r => if pred r then f r else r

/-- Rows returned by `UPDATE ... WHERE pred RETURNING *`. -/
def returningRows (db : List Reservation) (pred : Reservation → Bool)
    (f : Reservation → Reservation) : List Reservation :=
  (db.filter pred).map f

/-- SQL `COALESCE`. -/
def coalesce {α : Type} (a b : Option α) : Option α :=
  match a with
  | some x => some x
  | none => b

/-- JavaScript truthiness of an optional numeric body field (`0` is falsy). -/
def truthyNat : Option Nat → Bool
  | none => false
  | some n => n != 0

/-- JavaScript truthiness of an optional string body field (`""` is falsy). -/
def truthyStr : Option String → Bool
  | none => false
  | some s => !s.isEmpty

/-- JavaScript `s.slice(0, n)` on a string. -/
def jsSlice (s : String) (n : Nat) : String := ⟨s.data.take n⟩

/-- JavaScript `s.toLowerCase()` (ASCII suffices for the gateway statuses). -/
def jsToLower (s : String) : String := ⟨s.data.map Char.toLower⟩

/-- Body of POST /api/reservations (the fields the handler reads). -/
structure CreateRequest where
  restaurantId : Option Nat
  tableId : Option Nat
  reservationDate : Option String
  reservationTime : Option Nat
  partySize : Option Nat
  specialRequests : Option String
deriving DecidableEq, Repr

/-- Row filter of the availability SELECT in POST /api/reservations
(`src/index.js` lines 655-668): same restaurant, same table, same date,
active status, overlapping 2-hour window. -/
def conflictsWith (rid tid : Nat) (d : String) (t : Nat) (r : Reservation) : Bool :=
  r.restaurantId == rid && r.tableId == some tid && r.reservationDate == d
    && isActive r.status && overlapsWindow r.reservationTime t

/-- The availability SELECT returns at least one row. -/
def checkAvailability (db : List Reservation) (rid tid : Nat) (d : String)
    (t : Nat) : Bool :=
  db.any (conflictsWith rid tid d t)

/-- Responses of POST /api/reservations: 400 for missing fields, 400 for an
unavailable table, 201 with the inserted row. -/
inductive CreateResponse where
  | missingFields
  | tableUnavailable
  | created (r : Reservation)
deriving DecidableEq, Repr

/-- Outcome of POST /api/reservations: response, reservation table after the
request, notification rows inserted. -/
structure CreateResult where
  response : CreateResponse
  db : List Reservation
  notifs : List Notification
deriving DecidableEq, Repr

/-- Embedding of POST /api/reservations (`src/index.js` lines 634-711).
`newId` is the SERIAL id the INSERT assigns, `customerName` the display name
the handler computes from the customer row / request body, `notifOk` whether
the staff-notification INSERT succeeds. -/
def createReservation (db : List Reservation) (customerId : String)
    (req : CreateRequest) (newId : Nat) (customerName : String)
    (notifOk : Bool) : CreateResult :=
  if !(truthyNat req.restaurantId && truthyStr req.reservationDate
      && req.reservationTime.isSome && truthyNat req.partySize) then
    { response := CreateResponse.missingFields, db := db, notifs := [] }
  else
    let rid := req.restaurantId.getD 0
    let d := req.reservationDate.getD ("")
    let t := req.reservationTime.getD 0
    let p := req.partySize.getD 0
    let tid? : Option Nat := match req.tableId with
      | some tid => if tid == 0 then none else some tid
      | none => none
    let doInsert : CreateResult :=
      let r : Reservation :=
        { id := newId, customerId := some customerId, restaurantId := rid,
          tableId := tid?, reservationDate := d, reservationTime := t,
          partySize := p, status := RStatus.pending, cancellationReason := none,
          specialRequests := req.specialRequests, totalAmount := 0 }
      { response := CreateResponse.created r, db := db ++ [r],
        notifs := createNotification notifOk rid NotifType.reservationNew
          ("New Reservation")
          (s!"{customerName} made a reservation for {p} guest(s) on {d} at {t}")
          (some newId) }
    match tid? with
    | some tid =>
      if checkAvailability db rid tid d t then
        { response := CreateResponse.tableUnavailable, db := db, notifs := [] }
      else doInsert
    | none => doInsert

/-- Responses of PUT /api/reservations/:id. -/
inductive UpdateResponse where
  | notFound
  | updated (r : Reservation)
deriving DecidableEq, Repr

/-- Outcome of PUT /api/reservations/:id. -/
structure UpdateResult where
  response : UpdateResponse
  db : List Reservation
deriving DecidableEq, Repr

/-- Embedding of PUT /api/reservations/:id (`src/index.js` lines 732-758):
`UPDATE reservation SET status = COALESCE($1, status),
special_requests = COALESCE($2, special_requests)
WHERE id = $3 AND customer_id = $4 RETURNING *`. -/
def updateReservation (db : List Reservation) (customerId : String) (id : Nat)
    (status : Option RStatus) (specialRequests : Option String) : UpdateResult :=
  let pred : Reservation → Bool := fun r =>
    r.id == id && r.customerId == some customerId
  let upd : Reservation → Reservation := fun r =>
    { r with status := status.getD r.status,
             specialRequests := coalesce specialRequests r.specialRequests }
  let db' := updateRows db pred upd
  match (returningRows db pred upd).head? with
  | none => { response := UpdateResponse.notFound, db := db' }
  | some r => { response := UpdateResponse.updated r, db := db' }

/-- Truncation of the cancellation reason (`src/index.js` line 767):
`reason ? reason.slice(0, 500) : null` — note a missing or empty reason is
stored as NULL. -/
def truncateReason : Option String → Option String
  | none => none
  | some s => if s.isEmpty then none else some (jsSlice s 500)

/-- Staff message of the request-cancellation handler (`src/index.js` line
796): customer name, date and time come from the separately selected row,
and a missing or empty reason is rendered as "No reason provided". -/
def cancellationRequestMessage (customerName : String) (d : String) (t : Nat)
    (truncatedReason : Option String) : String :=
  let reasonText := match truncatedReason with
    | some s => s
    | none => "No reason provided"
  s!"{customerName} requested to cancel their reservation on {d} at {t}. Reason: {reasonText}"

/-- Responses of POST /api/reservations/:id/request-cancellation. -/
inductive RequestCancelResponse where
  | cannotCancel
  | ok (r : Reservation)
deriving DecidableEq, Repr

/-- Outcome of POST /api/reservations/:id/request-cancellation. -/
structure RequestCancelResult where
  response : RequestCancelResponse
  db : List Reservation
  notifs : List Notification
deriving DecidableEq, Repr

/-- Embedding of POST /api/reservations/:id/request-cancellation
(`src/index.js` lines 761-808).  The handler first SELECTs the reservation
by id alone (for the notification text), then runs
`UPDATE ... SET status = 'cancellation_requested', cancellation_reason = $1
WHERE id = $2 AND customer_id = $3 AND status IN ('pending', 'confirmed')
RETURNING *`, answers 400 when no row was updated, and otherwise emits a
staff notification built from the separately selected row. -/
def requestCancellation (db : List Reservation) (customerId : String)
    (id : Nat) (reason : Option String) (customerName : String)
    (notifOk : Bool) : RequestCancelResult :=
  let truncatedReason := truncateReason reason
  let found := db.find? fun r => r.id == id
  let pred : Reservation → Bool := fun r =>
    r.id == id && r.customerId == some customerId
      && (r.status == RStatus.pending || r.status == RStatus.confirmed)
  let upd : Reservation → Reservation := fun r =>
    { r with status := RStatus.cancellationRequested,
             cancellationReason := truncatedReason }
  let db' := updateRows db pred upd
  match (returningRows db pred upd).head? with
  | none => { response := RequestCancelResponse.cannotCancel, db := db', notifs := [] }
  | some r =>
    { response := RequestCancelResponse.ok r, db := db',
      notifs := match found with
        | some r0 =>
          createNotification notifOk r0.restaurantId NotifType.cancellationRequest
            ("Cancellation Request")
            (cancellationRequestMessage customerName r0.reservationDate
              r0.reservationTime truncatedReason)
            (some id)
        | none => [] }

/-- Display name of the restaurant in customer-facing messages:
`reservation.restaurant_name || 'the restaurant'`. -/
def displayName (restaurantName : Option String) : String :=
  match restaurantName with
  | some n => n
  | none => "the restaurant"

/-- Customer message of the staff status-update handler when the new status
is `confirmed` (`src/index.js` line 1451). -/
def confirmedMessage (restaurantName : Option String) (d : String) (t : Nat) : String :=
  let n := displayName restaurantName
  s!"Your reservation at {n} on {d} at {t} has been confirmed!"

/-- Customer message of the approve-cancellation handler
(`src/index.js` line 1512). -/
def approvedMessage (restaurantName : Option String) (d : String) (t : Nat) : String :=
  let n := displayName restaurantName
  s!"Your reservation at {n} on {d} at {t} has been cancelled as requested."

/-- Customer message of the reject-cancellation handler
(`src/index.js` line 1568). -/
def rejectedMessage (restaurantName : Option String) (d : String) (t : Nat) : String :=
  let n := displayName restaurantName
  s!"Your cancellation request for your reservation at {n} on {d} at {t} has been rejected. Your reservation remains confirmed."

/-- Responses of PUT /api/staff/reservations/:id/status.  The handler
responds with `result.rows[0]` of the UPDATE, hence an optional row. -/
inductive StaffStatusResponse where
  | notFound
  | updated (r : Option Reservation)
deriving DecidableEq, Repr

/-- Outcome of PUT /api/staff/reservations/:id/status. -/
structure StaffStatusResult where
  response : StaffStatusResponse
  db : List Reservation
  notifs : List Notification
deriving DecidableEq, Repr

/-- Embedding of PUT /api/staff/reservations/:id/status (`src/index.js`
lines 1407-1469): SELECT by id and the staff token's restaurant (404 when
absent), then `UPDATE reservation SET status = $1 WHERE id = $2 AND
restaurant_id = $3` with no guard on the previous status; when the new
status is `confirmed` and the reservation has a customer, a customer
notification INSERT is attempted inside its own try/catch. -/
def staffUpdateStatus (db : List Reservation) (staffRestaurantId : Nat)
    (id : Nat) (newStatus : RStatus) (restaurantName : Option String)
    (notifOk : Bool) : StaffStatusResult :=
  match db.find? (fun r => r.id == id && r.restaurantId == staffRestaurantId) with
  | none => { response := StaffStatusResponse.notFound, db := db, notifs := [] }
  | some r =>
    let pred : Reservation → Bool := fun x =>
      x.id == id && x.restaurantId == staffRestaurantId
    let upd : Reservation → Reservation := fun x => { x with status := newStatus }
    let notifs :=
      if newStatus == RStatus.confirmed then
        match r.customerId with
        | some cid =>
          createCustomerNotification notifOk cid NotifType.reservationConfirmed
            ("Reservation Confirmed")
            (confirmedMessage restaurantName r.reservationDate r.reservationTime)
            (some id)
        | none => []
      else []
    { response := StaffStatusResponse.updated (returningRows db pred upd).head?,
      db := updateRows db pred upd, notifs := notifs }

/-- Responses of the staff approve/reject-cancellation handlers: 404 when
the id is not in the staff member's restaurant, 404 "not found or already
processed" when the guarded UPDATE matched no row, otherwise the row. -/
inductive CancelDecisionResponse where
  | notFound
  | alreadyProcessed
  | ok (r : Reservation)
deriving DecidableEq, Repr

/-- Outcome of the staff approve/reject-cancellation handlers. -/
structure CancelDecisionResult where
  response : CancelDecisionResponse
  db : List Reservation
  notifs : List Notification
deriving DecidableEq, Repr

/-- Embedding of POST /api/staff/reservations/:id/approve-cancellation
(`src/index.js` lines 1472-1525): SELECT by id and the staff restaurant
(404 when absent), then `UPDATE ... SET status = 'cancelled',
cancellation_reason = NULL WHERE id = $1 AND restaurant_id = $2 AND
status = 'cancellation_requested' RETURNING *`; 404 when no row was
updated (before any notification), otherwise a customer notification of
type `cancellation_approved` when the reservation has a customer. -/
def approveCancellation (db : List Reservation) (staffRestaurantId : Nat)
    (id : Nat) (restaurantName : Option String) (notifOk : Bool) :
    CancelDecisionResult :=
  match db.find? (fun r => r.id == id && r.restaurantId == staffRestaurantId) with
  | none => { response := CancelDecisionResponse.notFound, db := db, notifs := [] }
  | some r =>
    let pred : Reservation → Bool := fun x =>
      x.id == id && x.restaurantId == staffRestaurantId
        && x.status == RStatus.cancellationRequested
    let upd : Reservation → Reservation := fun x =>
      { x with status := RStatus.cancelled, cancellationReason := none }
    let db' := updateRows db pred upd
    match (returningRows db pred upd).head? with
    | none => { response := CancelDecisionResponse.alreadyProcessed, db := db', notifs := [] }
    | some u =>
      { response := CancelDecisionResponse.ok u, db := db',
        notifs := match r.customerId with
          | some cid =>
            createCustomerNotification notifOk cid NotifType.cancellationApproved
              ("Cancellation Approved")
              (approvedMessage restaurantName r.reservationDate r.reservationTime)
              (some id)
          | none => [] }

/-- Embedding of POST /api/staff/reservations/:id/reject-cancellation
(`src/index.js` lines 1528-1581): same shape as approval, but the guarded
UPDATE sets `status = 'confirmed', cancellation_reason = NULL` and the
customer notification has type `cancellation_rejected` with a message that
the reservation remains confirmed. -/
def rejectCancellation (db : List Reservation) (staffRestaurantId : Nat)
    (id : Nat) (restaurantName : Option String) (notifOk : Bool) :
    CancelDecisionResult :=
  match db.find? (fun r => r.id == id && r.restaurantId == staffRestaurantId) with
  | none => { response := CancelDecisionResponse.notFound, db := db, notifs := [] }
  | some r =>
    let pred : Reservation → Bool := fun x =>
      x.id == id && x.restaurantId == staffRestaurantId
        && x.status == RStatus.cancellationRequested
    let upd : Reservation → Reservation := fun x =>
      { x with status := RStatus.confirmed, cancellationReason := none }
    let db' := updateRows db pred upd
    match (returningRows db pred upd).head? with
    | none => { response := CancelDecisionResponse.alreadyProcessed, db := db', notifs := [] }
    | some u =>
      { response := CancelDecisionResponse.ok u, db := db',
        notifs := match r.customerId with
          | some cid =>
            createCustomerNotification notifOk cid NotifType.cancellationRejected
              ("Cancellation Request Rejected")
              (rejectedMessage restaurantName r.reservationDate r.reservationTime)
              (some id)
          | none => [] }

/-- Status values of `payment_transactions.status` used by the HitPay flow. -/
inductive TxStatus where
  | pending
  | completed
  | failed
  | expired
deriving DecidableEq, Repr

/-- Values of the `orders.payment_status` CHECK constraint. -/
inductive PayStatus where
  | unpaid
  | paid
  | refunded
deriving DecidableEq, Repr

/-- Row of the `payment_transactions` table (the fields the callback
touches; timestamps are outside the model). -/
structure PaymentTx where
  paymentId : String
  orderId : Nat
  status : TxStatus
  transactionId : Option String
deriving DecidableEq, Repr

/-- Row of the `orders` table (the payment fields the callback touches). -/
structure Order where
  id : Nat
  paymentStatus : PayStatus
  paymentMethod : Option String
deriving DecidableEq, Repr

/-- Tables read and written by the payment callback. -/
structure PayState where
  txs : List PaymentTx
  orders : List Order
deriving DecidableEq, Repr

/-- Fields the callback handler reads from the webhook body:
`body.id || body.payment_request_id`, `body.status`, and
`body.payments?.[0]?.id || body.id`. -/
structure CallbackBody where
  paymentId : Option String
  status : Option String
  transactionId : Option String
deriving DecidableEq, Repr

/-- `statusMap[status?.toLowerCase()] || 'pending'` from the callback
handler (`src/index.js` lines 3087-3096). -/
def mapHitpayStatus : Option String → TxStatus
  | none => TxStatus.pending
  | some s =>
    let l := jsToLower s
    if l == "completed" || l == "success" || l == "succeeded" then TxStatus.completed
    else if l == "pending" then TxStatus.pending
    else if l == "failed" then TxStatus.failed
    else if l == "expired" then TxStatus.expired
    else TxStatus.pending

/-- Terminal payment statuses per the glossary: states after which no
further transition is expected. -/
def isTerminalTx : TxStatus → Bool
  | TxStatus.completed => true
  | TxStatus.failed => true
  | TxStatus.expired => true
  | TxStatus.pending => false

/-- Responses of POST /api/payments/hitpay/callback. -/
inductive CallbackResponse where
  | missingPaymentId
  | received (s : TxStatus)
deriving DecidableEq, Repr

/-- Outcome of POST /api/payments/hitpay/callback. -/
structure CallbackResult where
  state : PayState
  response : CallbackResponse
deriving DecidableEq, Repr

/-- Row effect of `UPDATE payment_transactions SET status = $1,
transaction_id = $2 WHERE payment_id = $3`. -/
def applyTxUpdate (pid : String) (mapped : TxStatus) (tid : Option String)
    (t : PaymentTx) : PaymentTx :=
  if t.paymentId == pid then
    { t with status := mapped, transactionId := tid }
  else t

/-- Row effect of `UPDATE orders SET payment_status = 'paid',
payment_method = 'hitpay' WHERE id = $1`. -/
def applyOrderPaid (oid : Nat) (o : Order) : Order :=
  if o.id == oid then
    { o with paymentStatus := PayStatus.paid, paymentMethod := some ("hitpay") }
  else o

/-- Database effect of the callback once a payment id is present: update the
matching transaction rows, then, when the mapped status is `completed`, look
the order id up in the (already updated) transaction table and mark that
order paid. -/
def callbackState (st : PayState) (pid : String) (mapped : TxStatus)
    (tid : Option String) : PayState :=
  let txs' := st.txs.map (applyTxUpdate pid mapped tid)
  let orders' :=
    if mapped == TxStatus.completed then
      match txs'.find? (fun t => t.paymentId == pid) with
      | some t => st.orders.map (applyOrderPaid t.orderId)
      | none => st.orders
    else st.orders
  { txs := txs', orders := orders' }

/-- Embedding of POST /api/payments/hitpay/callback (`src/index.js` lines
3066-3150): 400 without a payment id; otherwise apply `callbackState` with
the mapped gateway status and answer `{received: true, status}`. -/
def hitpayCallback (st : PayState) (body : CallbackBody) : CallbackResult :=
  match body.paymentId with
  | none => { state := st, response := CallbackResponse.missingPaymentId }
  | some pid =>
    let mapped := mapHitpayStatus body.status
    { state := callbackState st pid mapped body.transactionId,
      response := CallbackResponse.received mapped }

/-- Unfolding of the availability check into the interval-overlap property
it implements. -/
theorem checkAvailability_iff (db : List Reservation) (rid tid : Nat)
    (d : String) (t : Nat) :
    checkAvailability db rid tid d t = true ↔
      ∃ r ∈ db, r.restaurantId = rid ∧ r.tableId = some tid
        ∧ r.reservationDate = d
        ∧ r.status ≠ RStatus.cancelled ∧ r.status ≠ RStatus.noShow
        ∧ ((t ≤ r.reservationTime ∧ r.reservationTime < addMin t 120)
            ∨ (r.reservationTime < t ∧ t < addMin r.reservationTime 120)) := by
  simp [checkAvailability, conflictsWith, List.any_eq_true, isActive,
    overlapsWindow, and_assoc]

/-- Validation of POST /api/reservations passes when all required body
fields are present and truthy. -/
theorem create_validation_passes (req : CreateRequest) (rid t : Nat)
    (d : String) (hrid : req.restaurantId = some rid) (hrid0 : rid ≠ 0)
    (hd : req.reservationDate = some d) (hd0 : d ≠ "")
    (ht : req.reservationTime = some t) (hp : truthyNat req.partySize = true) :
    (truthyNat req.restaurantId && truthyStr req.reservationDate
      && req.reservationTime.isSome && truthyNat req.partySize) = true := by
  have h1 : truthyNat (some rid) = true := by simp [truthyNat, hrid0]
  have h2 : truthyStr (some d) = true := by
    cases hde : d.isEmpty with
    | false => simp [truthyStr, hde]
    | true => exact absurd ((String.isEmpty_iff d).mp (by simpa using hde)) hd0
  rw [hrid, hd, ht, h1, h2, hp]
  rfl

/-- C1: a reservation-creation request that supplies a table id is rejected
as unavailable exactly when some existing reservation on the same restaurant,
table and date whose status is neither cancelled nor no-show has a 2-hour
window overlapping the requested one under the strict-boundary interval test;
otherwise the reservation is created.  Concretely, an existing 18:00
reservation (minute 1080) conflicts with a 19:30 request (minute 1170) and
does not conflict with a 20:00 request (minute 1200). -/
theorem create_with_table_rejected_iff_conflict
    (db : List Reservation) (cid : String) (req : CreateRequest) (newId : Nat)
    (cname : String) (notifOk : Bool) (rid tid t : Nat) (d : String)
    (hrid : req.restaurantId = some rid) (hrid0 : rid ≠ 0)
    (hd : req.reservationDate = some d) (hd0 : d ≠ "")
    (ht : req.reservationTime = some t)
    (hp : truthyNat req.partySize = true)
    (htid : req.tableId = some tid) (htid0 : tid ≠ 0) :
    ((createReservation db cid req newId cname notifOk).response
        = CreateResponse.tableUnavailable
      ↔ ∃ r ∈ db, r.restaurantId = rid ∧ r.tableId = some tid
          ∧ r.reservationDate = d
          ∧ r.status ≠ RStatus.cancelled ∧ r.status ≠ RStatus.noShow
          ∧ ((t ≤ r.reservationTime ∧ r.reservationTime < addMin t 120)
              ∨ (r.reservationTime < t ∧ t < addMin r.reservationTime 120)))
    ∧ ((∃ rnew, (createReservation db cid req newId cname notifOk).response
          = CreateResponse.created rnew)
      ↔ ¬ ∃ r ∈ db, r.restaurantId = rid ∧ r.tableId = some tid
          ∧ r.reservationDate = d
          ∧ r.status ≠ RStatus.cancelled ∧ r.status ≠ RStatus.noShow
          ∧ ((t ≤ r.reservationTime ∧ r.reservationTime < addMin t 120)
              ∨ (r.reservationTime < t ∧ t < addMin r.reservationTime 120)))
    ∧ overlapsWindow 1080 1170 = true
    ∧ overlapsWindow 1080 1200 = false := by
  have hval := create_validation_passes req rid t d hrid hrid0 hd hd0 ht hp
  have htid0' : (tid == 0) = false := by simpa using htid0
  have hmain : (createReservation db cid req newId cname notifOk).response
      = (if checkAvailability db rid tid d t then CreateResponse.tableUnavailable
         else CreateResponse.created
          { id := newId, customerId := some cid, restaurantId := rid,
            tableId := some tid, reservationDate := d, reservationTime := t,
            partySize := req.partySize.getD 0, status := RStatus.pending,
            cancellationReason := none,
            specialRequests := req.specialRequests, totalAmount := 0 }) := by
    rw [hrid, hd, ht] at hval
    simp only [createReservation, hrid, hd, ht, htid, hval, htid0',
      Bool.not_true, Bool.false_eq_true, if_false, Option.getD_some]
    split <;> rfl
  refine ⟨?_, ?_, by decide, by decide⟩
  · rw [hmain, ← checkAvailability_iff]
    cases hc : checkAvailability db rid tid d t <;> simp [hc]
  · rw [hmain, ← checkAvailability_iff]
    cases hc : checkAvailability db rid tid d t <;> simp [hc]

/-- Closed instance of `create_with_table_rejected_iff_conflict`. -/
theorem create_with_table_rejected_iff_conflict_spot :
    let req : CreateRequest :=
      { restaurantId := some 1, tableId := some 3,
        reservationDate := some ("2026-01-01"), reservationTime := some 1170,
        partySize := some 4, specialRequests := none }
    let existing : Reservation :=
      { id := 9, customerId := some ("c9"), restaurantId := 1,
        tableId := some 3, reservationDate := "2026-01-01",
        reservationTime := 1080, partySize := 2, status := RStatus.confirmed,
        cancellationReason := none, specialRequests := none, totalAmount := 0 }
    ((createReservation [existing] "c1" req 10 "Ann" true).response
        = CreateResponse.tableUnavailable
      ↔ ∃ r ∈ [existing], r.restaurantId = 1 ∧ r.tableId = some 3
          ∧ r.reservationDate = "2026-01-01"
          ∧ r.status ≠ RStatus.cancelled ∧ r.status ≠ RStatus.noShow
          ∧ ((1170 ≤ r.reservationTime ∧ r.reservationTime < addMin 1170 120)
              ∨ (r.reservationTime < 1170 ∧ 1170 < addMin r.reservationTime 120)))
    ∧ ((∃ rnew, (createReservation [existing] "c1" req 10 "Ann" true).response
          = CreateResponse.created rnew)
      ↔ ¬ ∃ r ∈ [existing], r.restaurantId = 1 ∧ r.tableId = some 3
          ∧ r.reservationDate = "2026-01-01"
          ∧ r.status ≠ RStatus.cancelled ∧ r.status ≠ RStatus.noShow
          ∧ ((1170 ≤ r.reservationTime ∧ r.reservationTime < addMin 1170 120)
              ∨ (r.reservationTime < 1170 ∧ 1170 < addMin r.reservationTime 120)))
    ∧ overlapsWindow 1080 1170 = true
    ∧ overlapsWindow 1080 1200 = false :=
  create_with_table_rejected_iff_conflict [_] "c1" _ 10 "Ann" true 1 3 1170
    ("2026-01-01") rfl (by decide) rfl (by decide) rfl (by decide) rfl (by decide)

/-- C6: a reservation-creation request with no table id skips the
availability check and is always accepted with status `pending`, whatever
reservations already exist. -/
theorem create_without_table_always_accepted
    (db : List Reservation) (cid : String) (req : CreateRequest) (newId : Nat)
    (cname : String) (notifOk : Bool) (rid t p : Nat) (d : String)
    (hrid : req.restaurantId = some rid) (hrid0 : rid ≠ 0)
    (hd : req.reservationDate = some d) (hd0 : d ≠ "")
    (ht : req.reservationTime = some t)
    (hp : req.partySize = some p) (hp0 : p ≠ 0)
    (htid : req.tableId = none) :
    (createReservation db cid req newId cname notifOk).response
      = CreateResponse.created
        { id := newId, customerId := some cid, restaurantId := rid,
          tableId := none, reservationDate := d, reservationTime := t,
          partySize := p, status := RStatus.pending, cancellationReason := none,
          specialRequests := req.specialRequests, totalAmount := 0 }
    ∧ (createReservation db cid req newId cname notifOk).db
      = db ++ [{ id := newId, customerId := some cid, restaurantId := rid,
                 tableId := none, reservationDate := d, reservationTime := t,
                 partySize := p, status := RStatus.pending,
                 cancellationReason := none,
                 specialRequests := req.specialRequests, totalAmount := 0 }] := by
  have hptr : truthyNat req.partySize = true := by simp [truthyNat, hp, hp0]
  have hval := create_validation_passes req rid t d hrid hrid0 hd hd0 ht hptr
  rw [hrid, hd, ht, hp] at hval
  constructor <;>
    simp only [createReservation, hrid, hd, ht, hp, htid, hval,
      Bool.not_true, Bool.false_eq_true, if_false, Option.getD_some]

/-- Closed instance of `create_without_table_always_accepted`. -/
theorem create_without_table_always_accepted_spot :
    let req : CreateRequest :=
      { restaurantId := some 1, tableId := none,
        reservationDate := some ("2026-01-01"), reservationTime := some 1170,
        partySize := some 4, specialRequests := none }
    let existing : Reservation :=
      { id := 9, customerId := some ("c9"), restaurantId := 1,
        tableId := some 3, reservationDate := "2026-01-01",
        reservationTime := 1170, partySize := 2, status := RStatus.confirmed,
        cancellationReason := none, specialRequests := none, totalAmount := 0 }
    (createReservation [existing] "c1" req 10 "Ann" true).response
      = CreateResponse.created
        { id := 10, customerId := some ("c1"), restaurantId := 1,
          tableId := none, reservationDate := "2026-01-01",
          reservationTime := 1170, partySize := 4, status := RStatus.pending,
          cancellationReason := none, specialRequests := none,
          totalAmount := 0 }
    ∧ (createReservation [existing] "c1" req 10 "Ann" true).db
      = [existing] ++ [{ id := 10, customerId := some ("c1"),
                         restaurantId := 1, tableId := none,
                         reservationDate := "2026-01-01",
                         reservationTime := 1170, partySize := 4,
                         status := RStatus.pending,
                         cancellationReason := none, specialRequests := none,
                         totalAmount := 0 }] :=
  create_without_table_always_accepted [_] "c1" _ 10 "Ann" true 1 1170 4
    ("2026-01-01") rfl (by decide) rfl (by decide) rfl rfl (by decide) rfl

/-- Two members of a table with pairwise-distinct primary keys and the same
id are the same row. -/
theorem eq_of_mem_of_uniqueIds {db : List Reservation}
    (hUniq : db.Pairwise (fun a b => a.id ≠ b.id)) {x y : Reservation}
    (hx : x ∈ db) (hy : y ∈ db) (hid : x.id = y.id) : x = y := by
  induction db with
  | nil => cases hx
  | cons a l ih =>
    rcases List.pairwise_cons.mp hUniq with ⟨ha, hl⟩
    rcases List.mem_cons.mp hx with rfl | hx'
    · rcases List.mem_cons.mp hy with rfl | hy'
      · rfl
      · exact absurd hid (ha _ hy')
    · rcases List.mem_cons.mp hy with rfl | hy'
      · exact absurd hid.symm (ha _ hx')
      · exact ih hl hx' hy'

/-- With pairwise-distinct primary keys, a filter whose matches all share
the id of a matching member returns exactly that member. -/
theorem filter_eq_singleton_of_uniq {db : List Reservation}
    (hUniq : db.Pairwise (fun a b => a.id ≠ b.id)) {pred : Reservation → Bool}
    {r : Reservation} (hr : r ∈ db) (hpr : pred r = true)
    (hid : ∀ x ∈ db, pred x = true → x.id = r.id) :
    db.filter pred = [r] := by
  induction db with
  | nil => cases hr
  | cons a l ih =>
    rcases List.pairwise_cons.mp hUniq with ⟨ha, hl⟩
    rcases List.mem_cons.mp hr with rfl | hr'
    · rw [List.filter_cons_of_pos hpr]
      have hnil : l.filter pred = [] := by
        refine List.filter_eq_nil_iff.mpr fun x hx hp => ?_
        exact ha x hx ((hid x (List.mem_cons_of_mem _ hx) hp).symm ▸ rfl)
      rw [hnil]
    · have hpa : pred a = false := by
        cases hqa : pred a with
        | false => rfl
        | true =>
          exact absurd (hid a (List.mem_cons_self a l) hqa) (ha r hr')
      rw [List.filter_cons_of_neg (by simp [hpa])]
      exact ih hl hr' fun x hx hp => hid x (List.mem_cons_of_mem _ hx) hp

/-- An UPDATE whose WHERE clause matches no row leaves the table as it was. -/
theorem updateRows_eq_self {db : List Reservation} {pred : Reservation → Bool}
    {f : Reservation → Reservation} (h : ∀ x ∈ db, pred x = false) :
    updateRows db pred f = db := by
  unfold updateRows
  have h' : ∀ x ∈ db, (if pred x then f x else x) = id x := fun x hx => by
    simp [h x hx]
  rw [List.map_congr_left h', List.map_id]

/-- UPDATEs with row-wise equivalent WHERE clauses coincide. -/
theorem updateRows_congr {db : List Reservation} {p q : Reservation → Bool}
    {f : Reservation → Reservation} (h : ∀ x ∈ db, p x = q x) :
    updateRows db p f = updateRows db q f := by
  unfold updateRows
  exact List.map_congr_left fun x hx => by rw [h x hx]

/-- Completed reservation used to exhibit the missing lifecycle guard. -/
def sampleCompleted : Reservation :=
  { id := 1, customerId := some ("cust1"), restaurantId := 7,
    tableId := some 3, reservationDate := "2026-01-01",
    reservationTime := 1080, partySize := 2, status := RStatus.completed,
    cancellationReason := none, specialRequests := none, totalAmount := 0 }

/-- C2 counterexample: the staff status-update endpoint accepts the
transition completed → pending — the UPDATE has no guard on the previous
status — so a completed reservation can be moved back to pending. -/
theorem completed_to_pending_accepted_by_staff_update :
    sampleCompleted.status = RStatus.completed
    ∧ (staffUpdateStatus [sampleCompleted] 7 1 RStatus.pending none true).response
      = StaffStatusResponse.updated (some { sampleCompleted with status := RStatus.pending })
    ∧ (staffUpdateStatus [sampleCompleted] 7 1 RStatus.pending none true).db
      = [{ sampleCompleted with status := RStatus.pending }] := by
  refine ⟨rfl, ?_, ?_⟩ <;> rfl

/-- C2 (amended): the cancellation-workflow endpoints do reject transitions
outside the lifecycle graph — on a completed reservation, request-,
approve- and reject-cancellation all fail and leave the row unchanged —
but the staff direct status-update and the customer update endpoint apply
any requested status with no lifecycle guard, so completed → pending is
accepted by those two operations. -/
theorem lifecycle_guards_only_in_cancellation_workflow
    (r : Reservation) (cid : String) (srid id : Nat) (s : RStatus)
    (reason : Option String) (rn : Option String) (cname : String) (ok : Bool)
    (hid : r.id = id) (hrid : r.restaurantId = srid)
    (hcid : r.customerId = some cid) (hst : r.status = RStatus.completed) :
    (requestCancellation [r] cid id reason cname ok).response
        = RequestCancelResponse.cannotCancel
    ∧ (requestCancellation [r] cid id reason cname ok).db = [r]
    ∧ (approveCancellation [r] srid id rn ok).response
        = CancelDecisionResponse.alreadyProcessed
    ∧ (approveCancellation [r] srid id rn ok).db = [r]
    ∧ (rejectCancellation [r] srid id rn ok).response
        = CancelDecisionResponse.alreadyProcessed
    ∧ (rejectCancellation [r] srid id rn ok).db = [r]
    ∧ (staffUpdateStatus [r] srid id s rn ok).db = [{ r with status := s }]
    ∧ (updateReservation [r] cid id (some s) none).db
        = [{ r with status := s }] := by
  subst hid hrid
  refine ⟨?_, ?_, ?_, ?_, ?_, ?_, ?_, ?_⟩ <;>
    simp [requestCancellation, approveCancellation, rejectCancellation,
      staffUpdateStatus, updateReservation, updateRows, returningRows,
      hcid, hst, coalesce]

/-- Closed instance of `lifecycle_guards_only_in_cancellation_workflow`. -/
theorem lifecycle_guards_only_in_cancellation_workflow_spot :
    (requestCancellation [sampleCompleted] "cust1" 1 none ("Ann") true).response
        = RequestCancelResponse.cannotCancel
    ∧ (requestCancellation [sampleCompleted] "cust1" 1 none ("Ann") true).db
        = [sampleCompleted]
    ∧ (approveCancellation [sampleCompleted] 7 1 none true).response
        = CancelDecisionResponse.alreadyProcessed
    ∧ (approveCancellation [sampleCompleted] 7 1 none true).db
        = [sampleCompleted]
    ∧ (rejectCancellation [sampleCompleted] 7 1 none true).response
        = CancelDecisionResponse.alreadyProcessed
    ∧ (rejectCancellation [sampleCompleted] 7 1 none true).db
        = [sampleCompleted]
    ∧ (staffUpdateStatus [sampleCompleted] 7 1 RStatus.pending none true).db
        = [{ sampleCompleted with status := RStatus.pending }]
    ∧ (updateReservation [sampleCompleted] "cust1" 1 (some RStatus.pending) none).db
        = [{ sampleCompleted with status := RStatus.pending }] :=
  lifecycle_guards_only_in_cancellation_workflow sampleCompleted ("cust1") 7 1
    RStatus.pending none none ("Ann") true rfl rfl rfl rfl

/-- C3: approving a cancellation succeeds exactly from
`cancellation_requested`: the reservation becomes `cancelled` with the
reason cleared and exactly one customer notification of type
`cancellation_approved` is inserted (when the notification INSERT works and
the reservation has an owning customer); from any other status the request
is rejected, the table is unchanged and no notification of any kind is
created. -/
theorem approve_cancellation_correct
    (db : List Reservation) (srid id : Nat) (rn : Option String) (ok : Bool)
    (r : Reservation)
    (hUniq : db.Pairwise (fun a b => a.id ≠ b.id))
    (hfind : db.find? (fun x => x.id == id && x.restaurantId == srid) = some r) :
    (r.status = RStatus.cancellationRequested →
      (approveCancellation db srid id rn ok).response
          = CancelDecisionResponse.ok
              { r with status := RStatus.cancelled, cancellationReason := none }
      ∧ (approveCancellation db srid id rn ok).db
          = db.map (fun x => if x.id == id then
              { x with status := RStatus.cancelled, cancellationReason := none }
            else x)
      ∧ (∀ cid, r.customerId = some cid → ok = true →
          (approveCancellation db srid id rn ok).notifs
            = [{ restaurantId := none, customerId := some cid,
                 type := NotifType.cancellationApproved,
                 title := "Cancellation Approved",
                 message := approvedMessage rn r.reservationDate r.reservationTime,
                 reservationId := some id, isRead := false }]))
    ∧ (r.status ≠ RStatus.cancellationRequested →
      (approveCancellation db srid id rn ok).response
          = CancelDecisionResponse.alreadyProcessed
      ∧ (approveCancellation db srid id rn ok).db = db
      ∧ (approveCancellation db srid id rn ok).notifs = []) := by
  have hmem := List.mem_of_find?_eq_some hfind
  have hprm := List.find?_some hfind
  simp only [Bool.and_eq_true, beq_iff_eq] at hprm
  obtain ⟨hid, hrid⟩ := hprm
  constructor
  · intro hcr
    have hpredr : (r.id == id && r.restaurantId == srid
        && r.status == RStatus.cancellationRequested) = true := by
      simp [hid, hrid, hcr]
    have honly : ∀ x ∈ db, (x.id == id && x.restaurantId == srid
        && x.status == RStatus.cancellationRequested) = true → x.id = r.id := by
      intro x hx hp
      simp only [Bool.and_eq_true, beq_iff_eq] at hp
      rw [hp.1.1, hid]
    have hfilter := filter_eq_singleton_of_uniq hUniq hmem hpredr honly
    have hcongr : ∀ x ∈ db, (x.id == id && x.restaurantId == srid
        && x.status == RStatus.cancellationRequested) = (x.id == id) := by
      intro x hx
      cases hq : (x.id == id) with
      | true =>
        have hxr : x = r :=
          eq_of_mem_of_uniqueIds hUniq hx hmem (by
            rw [beq_iff_eq] at hq; rw [hq, hid])
        subst hxr
        simp [hrid, hcr]
      | false => simp [hq]
    refine ⟨?_, ?_, ?_⟩
    · simp only [approveCancellation, hfind, returningRows, hfilter,
        List.map_cons, List.map_nil, List.head?_cons]
    · simp only [approveCancellation, hfind, returningRows, hfilter,
        List.map_cons, List.map_nil, List.head?_cons]
      rw [updateRows_congr hcongr]
      rfl
    · intro cid hcid hok
      simp only [approveCancellation, hfind, returningRows, hfilter,
        List.map_cons, List.map_nil, List.head?_cons, hcid, hok,
        createCustomerNotification, if_true]
  · intro hcr
    have hnone : ∀ x ∈ db, (x.id == id && x.restaurantId == srid
        && x.status == RStatus.cancellationRequested) = false := by
      intro x hx
      cases hq : (x.id == id && x.restaurantId == srid
          && x.status == RStatus.cancellationRequested) with
      | false => rfl
      | true =>
        simp only [Bool.and_eq_true, beq_iff_eq] at hq
        have hxr : x = r :=
          eq_of_mem_of_uniqueIds hUniq hx hmem (by rw [hq.1.1, hid])
        exact absurd (hxr ▸ hq.2) hcr
    have hfilter0 : db.filter (fun x => x.id == id && x.restaurantId == srid
        && x.status == RStatus.cancellationRequested) = [] :=
      List.filter_eq_nil_iff.mpr fun x hx => by simp [hnone x hx]
    refine ⟨?_, ?_, ?_⟩
    · simp only [approveCancellation, hfind, returningRows, hfilter0,
        List.map_nil, List.head?_nil]
    · simp only [approveCancellation, hfind, returningRows, hfilter0,
        List.map_nil, List.head?_nil]
      exact updateRows_eq_self hnone
    · simp only [approveCancellation, hfind, returningRows, hfilter0,
        List.map_nil, List.head?_nil]

/-- Reservation awaiting a staff decision, used in closed instances. -/
def sampleRequested : Reservation :=
  { id := 1, customerId := some ("cust1"), restaurantId := 7,
    tableId := some 3, reservationDate := "2026-01-01",
    reservationTime := 1080, partySize := 2,
    status := RStatus.cancellationRequested,
    cancellationReason := some ("plans changed"), specialRequests := none,
    totalAmount := 0 }

/-- Closed instance of `approve_cancellation_correct`. -/
theorem approve_cancellation_correct_spot :
    ([sampleRequested].Pairwise (fun a b => a.id ≠ b.id)
      ∧ [sampleRequested].find? (fun x => x.id == 1 && x.restaurantId == 7)
          = some sampleRequested)
    ∧ ((sampleRequested.status = RStatus.cancellationRequested →
      (approveCancellation [sampleRequested] 7 1 none true).response
          = CancelDecisionResponse.ok
              { sampleRequested with status := RStatus.cancelled,
                                     cancellationReason := none }
      ∧ (approveCancellation [sampleRequested] 7 1 none true).db
          = [sampleRequested].map (fun x => if x.id == 1 then
              { x with status := RStatus.cancelled, cancellationReason := none }
            else x)
      ∧ (∀ cid, sampleRequested.customerId = some cid → true = true →
          (approveCancellation [sampleRequested] 7 1 none true).notifs
            = [{ restaurantId := none, customerId := some cid,
                 type := NotifType.cancellationApproved,
                 title := "Cancellation Approved",
                 message := approvedMessage none sampleRequested.reservationDate
                   sampleRequested.reservationTime,
                 reservationId := some 1, isRead := false }]))
    ∧ (sampleRequested.status ≠ RStatus.cancellationRequested →
      (approveCancellation [sampleRequested] 7 1 none true).response
          = CancelDecisionResponse.alreadyProcessed
      ∧ (approveCancellation [sampleRequested] 7 1 none true).db
          = [sampleRequested]
      ∧ (approveCancellation [sampleRequested] 7 1 none true).notifs = [])) :=
  ⟨⟨by simp, rfl⟩,
    approve_cancellation_correct [sampleRequested] 7 1 none true
      sampleRequested (by simp) rfl⟩

/-- C7: rejecting a cancellation is valid only from
`cancellation_requested`: the reservation moves back to `confirmed` with the
reason cleared and a customer notification whose message ends by stating
that the reservation remains confirmed is emitted; from any other status
(e.g. `pending`) the request fails as a conflict-class 404 with no state
change. -/
theorem reject_cancellation_correct
    (db : List Reservation) (srid id : Nat) (rn : Option String) (ok : Bool)
    (r : Reservation)
    (hUniq : db.Pairwise (fun a b => a.id ≠ b.id))
    (hfind : db.find? (fun x => x.id == id && x.restaurantId == srid) = some r) :
    (r.status = RStatus.cancellationRequested →
      (rejectCancellation db srid id rn ok).response
          = CancelDecisionResponse.ok
              { r with status := RStatus.confirmed, cancellationReason := none }
      ∧ (rejectCancellation db srid id rn ok).db
          = db.map (fun x => if x.id == id then
              { x with status := RStatus.confirmed, cancellationReason := none }
            else x)
      ∧ (∀ cid, r.customerId = some cid → ok = true →
          (rejectCancellation db srid id rn ok).notifs
            = [{ restaurantId := none, customerId := some cid,
                 type := NotifType.cancellationRejected,
                 title := "Cancellation Request Rejected",
                 message := rejectedMessage rn r.reservationDate r.reservationTime,
                 reservationId := some id, isRead := false }]))
    ∧ (r.status ≠ RStatus.cancellationRequested →
      (rejectCancellation db srid id rn ok).response
          = CancelDecisionResponse.alreadyProcessed
      ∧ (rejectCancellation db srid id rn ok).db = db
      ∧ (rejectCancellation db srid id rn ok).notifs = [])
    ∧ (∃ p, rejectedMessage rn r.reservationDate r.reservationTime
        = p ++ ("Your reservation remains confirmed.")) := by
  have hmem := List.mem_of_find?_eq_some hfind
  have hprm := List.find?_some hfind
  simp only [Bool.and_eq_true, beq_iff_eq] at hprm
  obtain ⟨hid, hrid⟩ := hprm
  refine ⟨?_, ?_, ?_⟩
  · intro hcr
    have hpredr : (r.id == id && r.restaurantId == srid
        && r.status == RStatus.cancellationRequested) = true := by
      simp [hid, hrid, hcr]
    have honly : ∀ x ∈ db, (x.id == id && x.restaurantId == srid
        && x.status == RStatus.cancellationRequested) = true → x.id = r.id := by
      intro x hx hp
      simp only [Bool.and_eq_true, beq_iff_eq] at hp
      rw [hp.1.1, hid]
    have hfilter := filter_eq_singleton_of_uniq hUniq hmem hpredr honly
    have hcongr : ∀ x ∈ db, (x.id == id && x.restaurantId == srid
        && x.status == RStatus.cancellationRequested) = (x.id == id) := by
      intro x hx
      cases hq : (x.id == id) with
      | true =>
        have hxr : x = r :=
          eq_of_mem_of_uniqueIds hUniq hx hmem (by
            rw [beq_iff_eq] at hq; rw [hq, hid])
        subst hxr
        simp [hrid, hcr]
      | false => simp [hq]
    refine ⟨?_, ?_, ?_⟩
    · simp only [rejectCancellation, hfind, returningRows, hfilter,
        List.map_cons, List.map_nil, List.head?_cons]
    · simp only [rejectCancellation, hfind, returningRows, hfilter,
        List.map_cons, List.map_nil, List.head?_cons]
      rw [updateRows_congr hcongr]
      rfl
    · intro cid hcid hok
      simp only [rejectCancellation, hfind, returningRows, hfilter,
        List.map_cons, List.map_nil, List.head?_cons, hcid, hok,
        createCustomerNotification, if_true]
  · intro hcr
    have hnone : ∀ x ∈ db, (x.id == id && x.restaurantId == srid
        && x.status == RStatus.cancellationRequested) = false := by
      intro x hx
      cases hq : (x.id == id && x.restaurantId == srid
          && x.status == RStatus.cancellationRequested) with
      | false => rfl
      | true =>
        simp only [Bool.and_eq_true, beq_iff_eq] at hq
        have hxr : x = r :=
          eq_of_mem_of_uniqueIds hUniq hx hmem (by rw [hq.1.1, hid])
        exact absurd (hxr ▸ hq.2) hcr
    have hfilter0 : db.filter (fun x => x.id == id && x.restaurantId == srid
        && x.status == RStatus.cancellationRequested) = [] :=
      List.filter_eq_nil_iff.mpr fun x hx => by simp [hnone x hx]
    refine ⟨?_, ?_, ?_⟩
    · simp only [rejectCancellation, hfind, returningRows, hfilter0,
        List.map_nil, List.head?_nil]
    · simp only [rejectCancellation, hfind, returningRows, hfilter0,
        List.map_nil, List.head?_nil]
      exact updateRows_eq_self hnone
    · simp only [rejectCancellation, hfind, returningRows, hfilter0,
        List.map_nil, List.head?_nil]
  · refine ⟨"Your cancellation request for your reservation at "
      ++ displayName rn ++ " on " ++ r.reservationDate ++ " at "
      ++ toString r.reservationTime ++ " has been rejected. ", ?_⟩
    simp only [rejectedMessage, String.append_assoc]
    rfl

/-- Closed instance of `reject_cancellation_correct`. -/
theorem reject_cancellation_correct_spot :
    ([sampleRequested].Pairwise (fun a b => a.id ≠ b.id)
      ∧ [sampleRequested].find? (fun x => x.id == 1 && x.restaurantId == 7)
          = some sampleRequested)
    ∧ ((sampleRequested.status = RStatus.cancellationRequested →
      (rejectCancellation [sampleRequested] 7 1 none true).response
          = CancelDecisionResponse.ok
              { sampleRequested with status := RStatus.confirmed,
                                     cancellationReason := none }
      ∧ (rejectCancellation [sampleRequested] 7 1 none true).db
          = [sampleRequested].map (fun x => if x.id == 1 then
              { x with status := RStatus.confirmed, cancellationReason := none }
            else x)
      ∧ (∀ cid, sampleRequested.customerId = some cid → true = true →
          (rejectCancellation [sampleRequested] 7 1 none true).notifs
            = [{ restaurantId := none, customerId := some cid,
                 type := NotifType.cancellationRejected,
                 title := "Cancellation Request Rejected",
                 message := rejectedMessage none sampleRequested.reservationDate
                   sampleRequested.reservationTime,
                 reservationId := some 1, isRead := false }]))
    ∧ (sampleRequested.status ≠ RStatus.cancellationRequested →
      (rejectCancellation [sampleRequested] 7 1 none true).response
          = CancelDecisionResponse.alreadyProcessed
      ∧ (rejectCancellation [sampleRequested] 7 1 none true).db
          = [sampleRequested]
      ∧ (rejectCancellation [sampleRequested] 7 1 none true).notifs = [])
    ∧ (∃ p, rejectedMessage none sampleRequested.reservationDate
          sampleRequested.reservationTime
        = p ++ ("Your reservation remains confirmed."))) :=
  ⟨⟨by simp, rfl⟩,
    reject_cancellation_correct [sampleRequested] 7 1 none true
      sampleRequested (by simp) rfl⟩

/-- A SELECT whose matches all coincide with a matching member returns
that member. -/
theorem find?_eq_some_of_only {db : List Reservation}
    {pred : Reservation → Bool} {r : Reservation}
    (hmem : r ∈ db) (hpr : pred r = true)
    (honly : ∀ x ∈ db, pred x = true → x = r) :
    db.find? pred = some r := by
  induction db with
  | nil => cases hmem
  | cons a l ih =>
    cases hpa : pred a with
    | true =>
      rw [List.find?_cons_of_pos _ hpa]
      exact congrArg some (honly a (List.mem_cons_self a l) hpa)
    | false =>
      rw [List.find?_cons_of_neg _ (by simp [hpa])]
      have hrl : r ∈ l := by
        rcases List.mem_cons.mp hmem with rfl | h
        · exact absurd hpr (by simp [hpa])
        · exact h
      exact ih hrl fun x hx hp => honly x (List.mem_cons_of_mem _ hx) hp

/-- C4: a customer's request-cancellation succeeds exactly when the
reservation belongs to that customer and is `pending` or `confirmed`; on
success the status becomes `cancellation_requested`, the stored reason is
the supplied reason cut to its first 500 characters, and a staff
notification is emitted; from any other status (or for another customer's
reservation) nothing changes.  The final conjunct pins the truncation down:
a 600-character reason is stored with exactly its first 500 characters. -/
theorem request_cancellation_correct
    (db : List Reservation) (cid : String) (id : Nat) (reason : Option String)
    (cname : String) (ok : Bool) (r : Reservation)
    (hUniq : db.Pairwise (fun a b => a.id ≠ b.id))
    (hmem : r ∈ db) (hid : r.id = id) :
    ((r.customerId = some cid
        ∧ (r.status = RStatus.pending ∨ r.status = RStatus.confirmed)) →
      (requestCancellation db cid id reason cname ok).response
          = RequestCancelResponse.ok
              { r with status := RStatus.cancellationRequested,
                       cancellationReason := truncateReason reason }
      ∧ (requestCancellation db cid id reason cname ok).db
          = db.map (fun x => if x.id == id then
              { x with status := RStatus.cancellationRequested,
                       cancellationReason := truncateReason reason }
            else x)
      ∧ (ok = true →
          (requestCancellation db cid id reason cname ok).notifs
            = [{ restaurantId := some r.restaurantId, customerId := none,
                 type := NotifType.cancellationRequest,
                 title := "Cancellation Request",
                 message := cancellationRequestMessage cname r.reservationDate
                   r.reservationTime (truncateReason reason),
                 reservationId := some id, isRead := false }]))
    ∧ (¬(r.customerId = some cid
        ∧ (r.status = RStatus.pending ∨ r.status = RStatus.confirmed)) →
      (requestCancellation db cid id reason cname ok).response
          = RequestCancelResponse.cannotCancel
      ∧ (requestCancellation db cid id reason cname ok).db = db
      ∧ (requestCancellation db cid id reason cname ok).notifs = [])
    ∧ (∀ s : String, s.length = 600 →
        truncateReason (some s) = some (jsSlice s 500)
        ∧ (jsSlice s 500).length = 500
        ∧ (jsSlice s 500).data = s.data.take 500) := by
  refine ⟨?_, ?_, ?_⟩
  · rintro ⟨hcid, hst⟩
    have hpredr : (r.id == id && r.customerId == some cid
        && (r.status == RStatus.pending || r.status == RStatus.confirmed)) = true := by
      rcases hst with h | h <;> simp [hid, hcid, h]
    have honly : ∀ x ∈ db, (x.id == id && x.customerId == some cid
        && (x.status == RStatus.pending || x.status == RStatus.confirmed)) = true
        → x.id = r.id := by
      intro x hx hp
      simp only [Bool.and_eq_true, beq_iff_eq] at hp
      rw [hp.1.1, hid]
    have hfilter := filter_eq_singleton_of_uniq hUniq hmem hpredr honly
    have hfound : db.find? (fun x => x.id == id) = some r := by
      refine find?_eq_some_of_only hmem (by simp [hid]) ?_
      intro x hx hp
      exact eq_of_mem_of_uniqueIds hUniq hx hmem (by
        rw [beq_iff_eq] at hp; rw [hp, hid])
    have hcongr : ∀ x ∈ db, (x.id == id && x.customerId == some cid
        && (x.status == RStatus.pending || x.status == RStatus.confirmed))
          = (x.id == id) := by
      intro x hx
      cases hq : (x.id == id) with
      | true =>
        have hxr : x = r :=
          eq_of_mem_of_uniqueIds hUniq hx hmem (by
            rw [beq_iff_eq] at hq; rw [hq, hid])
        subst hxr
        rcases hst with h | h <;> simp [hcid, h]
      | false => simp [hq]
    refine ⟨?_, ?_, ?_⟩
    · simp only [requestCancellation, returningRows, hfilter, List.map_cons,
        List.map_nil, List.head?_cons]
    · simp only [requestCancellation, returningRows, hfilter, List.map_cons,
        List.map_nil, List.head?_cons]
      rw [updateRows_congr hcongr]
      rfl
    · intro hok
      simp only [requestCancellation, returningRows, hfilter, List.map_cons,
        List.map_nil, List.head?_cons, hfound, hok, createNotification,
        if_true]
  · intro hcond
    have hnone : ∀ x ∈ db, (x.id == id && x.customerId == some cid
        && (x.status == RStatus.pending || x.status == RStatus.confirmed))
          = false := by
      intro x hx
      cases hq : (x.id == id && x.customerId == some cid
          && (x.status == RStatus.pending || x.status == RStatus.confirmed)) with
      | false => rfl
      | true =>
        simp only [Bool.and_eq_true, Bool.or_eq_true, beq_iff_eq] at hq
        have hxr : x = r :=
          eq_of_mem_of_uniqueIds hUniq hx hmem (by rw [hq.1.1, hid])
        subst hxr
        exact absurd ⟨hq.1.2, hq.2⟩ hcond
    have hfilter0 : db.filter (fun x => x.id == id && x.customerId == some cid
        && (x.status == RStatus.pending || x.status == RStatus.confirmed)) = [] :=
      List.filter_eq_nil_iff.mpr fun x hx => by simp [hnone x hx]
    refine ⟨?_, ?_, ?_⟩
    · simp only [requestCancellation, returningRows, hfilter0,
        List.map_nil, List.head?_nil]
    · simp only [requestCancellation, returningRows, hfilter0,
        List.map_nil, List.head?_nil]
      exact updateRows_eq_self hnone
    · simp only [requestCancellation, returningRows, hfilter0,
        List.map_nil, List.head?_nil]
  · intro s hs
    have hs' : s.data.length = 600 := hs
    have hne : s ≠ "" := by
      intro h
      rw [h] at hs'
      simp at hs'
    refine ⟨by simp [truncateReason, String.isEmpty_iff, hne], ?_, rfl⟩
    show (s.data.take 500).length = 500
    rw [List.length_take, hs']
    omega

/-- Confirmed reservation owned by "cust1", used in closed instances. -/
def sampleConfirmed : Reservation :=
  { id := 2, customerId := some ("cust1"), restaurantId := 7,
    tableId := some 3, reservationDate := "2026-01-02",
    reservationTime := 1080, partySize := 2, status := RStatus.confirmed,
    cancellationReason := none, specialRequests := none, totalAmount := 0 }

/-- Closed instance of `request_cancellation_correct`. -/
theorem request_cancellation_correct_spot :
    ([sampleConfirmed].Pairwise (fun a b => a.id ≠ b.id)
      ∧ sampleConfirmed ∈ [sampleConfirmed] ∧ sampleConfirmed.id = 2)
    ∧ (((sampleConfirmed.customerId = some ("cust1")
        ∧ (sampleConfirmed.status = RStatus.pending
            ∨ sampleConfirmed.status = RStatus.confirmed)) →
      (requestCancellation [sampleConfirmed] "cust1" 2 (some ("plans changed"))
          "Ann" true).response
          = RequestCancelResponse.ok
              { sampleConfirmed with
                  status := RStatus.cancellationRequested,
                  cancellationReason := truncateReason (some ("plans changed")) }
      ∧ (requestCancellation [sampleConfirmed] "cust1" 2 (some ("plans changed"))
          "Ann" true).db
          = [sampleConfirmed].map (fun x => if x.id == 2 then
              { x with
                  status := RStatus.cancellationRequested,
                  cancellationReason := truncateReason (some ("plans changed")) }
            else x)
      ∧ (true = true →
          (requestCancellation [sampleConfirmed] "cust1" 2
              (some ("plans changed")) "Ann" true).notifs
            = [{ restaurantId := some sampleConfirmed.restaurantId,
                 customerId := none,
                 type := NotifType.cancellationRequest,
                 title := "Cancellation Request",
                 message := cancellationRequestMessage ("Ann")
                   sampleConfirmed.reservationDate
                   sampleConfirmed.reservationTime
                   (truncateReason (some ("plans changed"))),
                 reservationId := some 2, isRead := false }]))
    ∧ (¬(sampleConfirmed.customerId = some ("cust1")
        ∧ (sampleConfirmed.status = RStatus.pending
            ∨ sampleConfirmed.status = RStatus.confirmed)) →
      (requestCancellation [sampleConfirmed] "cust1" 2 (some ("plans changed"))
          "Ann" true).response = RequestCancelResponse.cannotCancel
      ∧ (requestCancellation [sampleConfirmed] "cust1" 2 (some ("plans changed"))
          "Ann" true).db = [sampleConfirmed]
      ∧ (requestCancellation [sampleConfirmed] "cust1" 2 (some ("plans changed"))
          "Ann" true).notifs = [])
    ∧ (∀ s : String, s.length = 600 →
        truncateReason (some s) = some (jsSlice s 500)
        ∧ (jsSlice s 500).length = 500
        ∧ (jsSlice s 500).data = s.data.take 500)) :=
  ⟨⟨by simp, by simp, rfl⟩,
    request_cancellation_correct [sampleConfirmed] "cust1" 2
      (some ("plans changed")) "Ann" true sampleConfirmed
      (by simp) (by simp) rfl⟩

/-- C8: every staff status transition (direct status set,
approve-cancellation, reject-cancellation) on a reservation whose venue is
not the staff caller's venue answers not-found and changes nothing, and the
response is literally the same as for an id that exists in no venue at all,
so nothing reveals whether the id exists elsewhere. -/
theorem staff_transitions_scoped_to_venue
    (db db2 : List Reservation) (srid id : Nat) (s : RStatus)
    (rn : Option String) (ok : Bool)
    (h : ∀ x ∈ db, x.id = id → x.restaurantId ≠ srid)
    (h2 : ∀ x ∈ db2, x.id ≠ id) :
    staffUpdateStatus db srid id s rn ok
        = { response := StaffStatusResponse.notFound, db := db, notifs := [] }
    ∧ approveCancellation db srid id rn ok
        = { response := CancelDecisionResponse.notFound, db := db, notifs := [] }
    ∧ rejectCancellation db srid id rn ok
        = { response := CancelDecisionResponse.notFound, db := db, notifs := [] }
    ∧ (staffUpdateStatus db srid id s rn ok).response
        = (staffUpdateStatus db2 srid id s rn ok).response
    ∧ (approveCancellation db srid id rn ok).response
        = (approveCancellation db2 srid id rn ok).response
    ∧ (rejectCancellation db srid id rn ok).response
        = (rejectCancellation db2 srid id rn ok).response := by
  have hf1 : db.find? (fun x => x.id == id && x.restaurantId == srid) = none := by
    rw [List.find?_eq_none]
    intro x hx
    simp only [Bool.and_eq_true, beq_iff_eq, not_and]
    intro e1 e2
    exact h x hx e1 e2
  have hf2 : db2.find? (fun x => x.id == id && x.restaurantId == srid) = none := by
    rw [List.find?_eq_none]
    intro x hx
    simp only [Bool.and_eq_true, beq_iff_eq, not_and]
    intro e1 e2
    exact h2 x hx e1
  refine ⟨?_, ?_, ?_, ?_, ?_, ?_⟩ <;>
    simp only [staffUpdateStatus, approveCancellation, rejectCancellation,
      hf1, hf2]

/-- Closed instance of `staff_transitions_scoped_to_venue`: reservation 2
lives in restaurant 7, the caller's staff identity is restaurant 8. -/
theorem staff_transitions_scoped_to_venue_spot :
    ((∀ x ∈ [sampleConfirmed], x.id = 2 → x.restaurantId ≠ 8)
      ∧ (∀ x ∈ ([] : List Reservation), x.id ≠ 2))
    ∧ (staffUpdateStatus [sampleConfirmed] 8 2 RStatus.pending none true
        = { response := StaffStatusResponse.notFound, db := [sampleConfirmed],
            notifs := [] }
    ∧ approveCancellation [sampleConfirmed] 8 2 none true
        = { response := CancelDecisionResponse.notFound, db := [sampleConfirmed],
            notifs := [] }
    ∧ rejectCancellation [sampleConfirmed] 8 2 none true
        = { response := CancelDecisionResponse.notFound, db := [sampleConfirmed],
            notifs := [] }
    ∧ (staffUpdateStatus [sampleConfirmed] 8 2 RStatus.pending none true).response
        = (staffUpdateStatus [] 8 2 RStatus.pending none true).response
    ∧ (approveCancellation [sampleConfirmed] 8 2 none true).response
        = (approveCancellation [] 8 2 none true).response
    ∧ (rejectCancellation [sampleConfirmed] 8 2 none true).response
        = (rejectCancellation [] 8 2 none true).response) :=
  ⟨⟨by simp [sampleConfirmed], by simp⟩,
    staff_transitions_scoped_to_venue [sampleConfirmed] [] 8 2 RStatus.pending
      none true (by simp [sampleConfirmed]) (by simp)⟩

/-- C9: a failing notification INSERT (`notifOk = false`) never changes the
response or the resulting reservation table of the operation that triggered
it — reservation creation, cancellation request, staff status update
(including the `confirmed` notification path), cancellation approval and
cancellation rejection all produce exactly the state and response they
produce when the notification INSERT succeeds. -/
theorem notification_failure_never_affects_outcome
    (db : List Reservation) (cid : String) (req : CreateRequest) (newId : Nat)
    (cname : String) (srid id : Nat) (s : RStatus) (rn : Option String)
    (reason : Option String) :
    ((createReservation db cid req newId cname false).response
        = (createReservation db cid req newId cname true).response
      ∧ (createReservation db cid req newId cname false).db
        = (createReservation db cid req newId cname true).db)
    ∧ ((requestCancellation db cid id reason cname false).response
        = (requestCancellation db cid id reason cname true).response
      ∧ (requestCancellation db cid id reason cname false).db
        = (requestCancellation db cid id reason cname true).db)
    ∧ ((staffUpdateStatus db srid id s rn false).response
        = (staffUpdateStatus db srid id s rn true).response
      ∧ (staffUpdateStatus db srid id s rn false).db
        = (staffUpdateStatus db srid id s rn true).db)
    ∧ ((approveCancellation db srid id rn false).response
        = (approveCancellation db srid id rn true).response
      ∧ (approveCancellation db srid id rn false).db
        = (approveCancellation db srid id rn true).db)
    ∧ ((rejectCancellation db srid id rn false).response
        = (rejectCancellation db srid id rn true).response
      ∧ (rejectCancellation db srid id rn false).db
        = (rejectCancellation db srid id rn true).db) := by
  refine ⟨⟨?_, ?_⟩, ⟨?_, ?_⟩, ⟨?_, ?_⟩, ⟨?_, ?_⟩, ⟨?_, ?_⟩⟩
  all_goals
    (simp only [createReservation, requestCancellation, staffUpdateStatus,
      approveCancellation, rejectCancellation];
     repeat' split;
     all_goals rfl)

/-- C10: the customer update endpoint only ever touches the `status` and
`special_requests` columns of rows owned by the calling customer: the table
keeps its length, rows not matching `(id, customer)` are untouched, and on
the matching row every other column is preserved while each of the two
updatable columns follows COALESCE semantics — an absent field keeps the
stored value, a present one overwrites it. -/
theorem update_reservation_frame
    (db : List Reservation) (cid : String) (id : Nat)
    (st? : Option RStatus) (sp? : Option String) :
    (updateReservation db cid id st? sp?).db.length = db.length
    ∧ (∀ (i : Nat) (r r' : Reservation), db[i]? = some r
        → (updateReservation db cid id st? sp?).db[i]? = some r'
        → ((¬(r.id = id ∧ r.customerId = some cid)) → r' = r)
          ∧ (r.id = id → r.customerId = some cid →
              r'.id = r.id ∧ r'.customerId = r.customerId
              ∧ r'.restaurantId = r.restaurantId ∧ r'.tableId = r.tableId
              ∧ r'.reservationDate = r.reservationDate
              ∧ r'.reservationTime = r.reservationTime
              ∧ r'.partySize = r.partySize
              ∧ r'.cancellationReason = r.cancellationReason
              ∧ r'.totalAmount = r.totalAmount
              ∧ (st? = none → r'.status = r.status)
              ∧ (∀ v, st? = some v → r'.status = v)
              ∧ (sp? = none → r'.specialRequests = r.specialRequests)
              ∧ (∀ v, sp? = some v → r'.specialRequests = some v))) := by
  have hdb : (updateReservation db cid id st? sp?).db
      = updateRows db (fun r => r.id == id && r.customerId == some cid)
          (fun r => { r with
                        status := st?.getD r.status,
                        specialRequests := coalesce sp? r.specialRequests }) := by
    simp only [updateReservation]
    split <;> rfl
  constructor
  · rw [hdb]
    simp [updateRows]
  · intro i r r' h1 h2
    rw [hdb] at h2
    simp only [updateRows, List.getElem?_map, h1, Option.map_some'] at h2
    have h2' := Option.some.inj h2
    constructor
    · intro hneg
      have hpred : (r.id == id && r.customerId == some cid) = false := by
        cases hq : (r.id == id && r.customerId == some cid) with
        | false => rfl
        | true =>
          simp only [Bool.and_eq_true, beq_iff_eq] at hq
          exact absurd ⟨hq.1, hq.2⟩ hneg
      rw [← h2', hpred]
      rfl
    · intro hi hc
      have hpred : (r.id == id && r.customerId == some cid) = true := by
        simp [hi, hc]
      rw [← h2', hpred]
      refine ⟨rfl, rfl, rfl, rfl, rfl, rfl, rfl, rfl, rfl, ?_, ?_, ?_, ?_⟩
      · intro h
        rw [if_pos rfl]
        simp [h]
      · intro v h
        rw [if_pos rfl]
        simp [h]
      · intro h
        rw [if_pos rfl]
        simp [h, coalesce]
      · intro v h
        rw [if_pos rfl]
        simp [h, coalesce]

/-- Closed instance of `update_reservation_frame`. -/
theorem update_reservation_frame_spot :
    ((updateReservation [sampleConfirmed] "cust1" 2 none
        (some ("window seat"))).db.length = [sampleConfirmed].length
    ∧ (∀ (i : Nat) (r r' : Reservation), [sampleConfirmed][i]? = some r
        → (updateReservation [sampleConfirmed] "cust1" 2 none
            (some ("window seat"))).db[i]? = some r'
        → ((¬(r.id = 2 ∧ r.customerId = some ("cust1"))) → r' = r)
          ∧ (r.id = 2 → r.customerId = some ("cust1") →
              r'.id = r.id ∧ r'.customerId = r.customerId
              ∧ r'.restaurantId = r.restaurantId ∧ r'.tableId = r.tableId
              ∧ r'.reservationDate = r.reservationDate
              ∧ r'.reservationTime = r.reservationTime
              ∧ r'.partySize = r.partySize
              ∧ r'.cancellationReason = r.cancellationReason
              ∧ r'.totalAmount = r.totalAmount
              ∧ ((none : Option RStatus) = none → r'.status = r.status)
              ∧ (∀ v, (none : Option RStatus) = some v → r'.status = v)
              ∧ ((some ("window seat") : Option String) = none
                  → r'.specialRequests = r.specialRequests)
              ∧ (∀ v, (some ("window seat") : Option String) = some v
                  → r'.specialRequests = some v)))) :=
  update_reservation_frame [sampleConfirmed] "cust1" 2 none
    (some ("window seat"))

/-- Updating a transaction row to fixed values twice equals doing it once. -/
theorem applyTxUpdate_idem (pid : String) (mapped : TxStatus)
    (tid : Option String) (t : PaymentTx) :
    applyTxUpdate pid mapped tid (applyTxUpdate pid mapped tid t)
      = applyTxUpdate pid mapped tid t := by
  cases hb : (t.paymentId == pid) with
  | false => simp [applyTxUpdate, hb]
  | true => simp [applyTxUpdate, hb]

/-- Marking an order paid twice equals doing it once. -/
theorem applyOrderPaid_idem (oid : Nat) (o : Order) :
    applyOrderPaid oid (applyOrderPaid oid o) = applyOrderPaid oid o := by
  cases hb : (o.id == oid) with
  | false => simp [applyOrderPaid, hb]
  | true => simp [applyOrderPaid, hb]

/-- The callback's database effect is idempotent for a fixed payment id,
mapped status and transaction id. -/
theorem callbackState_idem (st : PayState) (pid : String) (mapped : TxStatus)
    (tid : Option String) :
    callbackState (callbackState st pid mapped tid) pid mapped tid
      = callbackState st pid mapped tid := by
  have htx : ∀ l : List PaymentTx,
      (l.map (applyTxUpdate pid mapped tid)).map (applyTxUpdate pid mapped tid)
        = l.map (applyTxUpdate pid mapped tid) := fun l => by
    rw [List.map_map]
    exact List.map_congr_left fun t _ => applyTxUpdate_idem pid mapped tid t
  have hord : ∀ (l : List Order) (oid : Nat),
      (l.map (applyOrderPaid oid)).map (applyOrderPaid oid)
        = l.map (applyOrderPaid oid) := fun l oid => by
    rw [List.map_map]
    exact List.map_congr_left fun o _ => applyOrderPaid_idem oid o
  simp only [callbackState]
  cases hm : (mapped == TxStatus.completed) with
  | false =>
    simp only [hm, Bool.false_eq_true, if_false]
    rw [htx]
  | true =>
    simp only [hm, if_true]
    rw [htx]
    cases hf : (st.txs.map (applyTxUpdate pid mapped tid)).find?
        (fun t => t.paymentId == pid) with
    | none => rfl
    | some t =>
      simp only []
      rw [hord]

/-- C5: the payment-gateway callback is idempotent for terminal statuses —
replaying a callback with the same payment id and the same mapped terminal
status (e.g. `completed`) leaves the payment-transaction rows and the
order's `payment_status` / `payment_method` exactly as after a single
application, and returns the same response. -/
theorem hitpay_callback_idempotent (st : PayState) (b : CallbackBody)
    (hterm : isTerminalTx (mapHitpayStatus b.status) = true) :
    hitpayCallback (hitpayCallback st b).state b = hitpayCallback st b := by
  cases hpid : b.paymentId with
  | none => simp [hitpayCallback, hpid]
  | some pid => simp [hitpayCallback, hpid, callbackState_idem]

/-- Closed instance of `hitpay_callback_idempotent`: a completed callback
for payment "p1" attached to order 5. -/
theorem hitpay_callback_idempotent_spot :
    isTerminalTx (mapHitpayStatus (some ("completed"))) = true
    ∧ (hitpayCallback
        (hitpayCallback
          { txs := [{ paymentId := "p1", orderId := 5,
                      status := TxStatus.pending, transactionId := none }],
            orders := [{ id := 5, paymentStatus := PayStatus.unpaid,
                         paymentMethod := none }] }
          { paymentId := some ("p1"), status := some ("completed"),
            transactionId := some ("tx9") }).state
        { paymentId := some ("p1"), status := some ("completed"),
          transactionId := some ("tx9") })
      = hitpayCallback
          { txs := [{ paymentId := "p1", orderId := 5,
                      status := TxStatus.pending, transactionId := none }],
            orders := [{ id := 5, paymentStatus := PayStatus.unpaid,
                         paymentMethod := none }] }
          { paymentId := some ("p1"), status := some ("completed"),
            transactionId := some ("tx9") } :=
  ⟨by decide,
    hitpay_callback_idempotent
      { txs := [{ paymentId := "p1", orderId := 5,
                  status := TxStatus.pending, transactionId := none }],
        orders := [{ id := 5, paymentStatus := PayStatus.unpaid,
                     paymentMethod := none }] }
      { paymentId := some ("p1"), status := some ("completed"),
        transactionId := some ("tx9") }
      (by decide)⟩

end RRS
